import Mathlib

/-!
Verification development for the PBL scheduler repository.

The repository consists of a Django backend (booking engine, slot store,
availability summary) plus React student/faculty frontends.  The backend
application code is not included in the sources; it is documented by the
repository README and the specification, so the booking engine and the
availability services below are modelled from the spec.  The frontend
utility code (`Stepper.jsx`, `errorUtils.js`) is embedded directly from
its source.
-/

namespace Scheduler

/-- Booking status: a booking is either `confirmed` or `cancelled`. -/
inductive BookingStatus where
  | confirmed
  | cancelled
deriving DecidableEq, Repr

/-- Modelled from the spec: a Slot record (identifier, subject, start/end
time, owning faculty, `is_available` flag).  Times are epoch seconds. -/
structure Slot where
  id : Nat
  subject : String
  startTime : Nat
  endTime : Nat
  facultyId : Nat
  is_available : Bool
deriving DecidableEq, Repr

/-- Modelled from the spec: a Booking record referencing a slot and a
student, carrying a status. -/
structure Booking where
  id : Nat
  slotId : Nat
  studentId : Nat
  status : BookingStatus
deriving DecidableEq, Repr

/-- Modelled from the spec: an AbsenceBlock (student identifier, subject);
its presence blocks that student from booking that subject. -/
structure AbsenceBlock where
  studentId : Nat
  subject : String
deriving DecidableEq, Repr

/-- Modelled from the spec: the shared relational store holding the Slot
Store, the Booking Store and the absence blocks, plus the next fresh
booking identifier. -/
structure DB where
  slots : List Slot
  bookings : List Booking
  blocks : List AbsenceBlock
  nextBookingId : Nat
deriving DecidableEq, Repr

/-- Error taxonomy of the booking engine (spec section 7). -/
inductive BookingError where
  | NotFound
  | SlotUnavailable
  | SlotAlreadyBooked
  | StudentBlocked
  | DuplicateSubjectBooking
  | AlreadyCancelled
deriving DecidableEq, Repr

/-- Look a slot up by its identifier. -/
def findSlot (db : DB) (slotId : Nat) : Option Slot :=
  db.slots.find? (fun s => s.id == slotId)

/-- Some confirmed booking references the given slot. -/
def SlotHasConfirmed (db : DB) (slotId : Nat) : Prop :=
  ∃ b ∈ db.bookings, b.slotId = slotId ∧ b.status = .confirmed

instance (db : DB) (slotId : Nat) : Decidable (SlotHasConfirmed db slotId) :=
  inferInstanceAs (Decidable (∃ b ∈ db.bookings, b.slotId = slotId ∧ b.status = .confirmed))

/-- The subject of a booking, determined through the slot it references. -/
def bookingSubject (slots : List Slot) (b : Booking) : Option String :=
  (slots.find? (fun s => s.id == b.slotId)).map (fun s => s.subject)

/-- An absence block for (student, subject) is present. -/
def HasBlock (db : DB) (studentId : Nat) (subject : String) : Prop :=
  ∃ a ∈ db.blocks, a.studentId = studentId ∧ a.subject = subject

instance (db : DB) (studentId : Nat) (subject : String) :
    Decidable (HasBlock db studentId subject) :=
  inferInstanceAs (Decidable (∃ a ∈ db.blocks, a.studentId = studentId ∧ a.subject = subject))

/-- The student already holds a confirmed booking for the given subject
(across any slot). -/
def HasConfirmedSubject (db : DB) (studentId : Nat) (subject : String) : Prop :=
  ∃ b ∈ db.bookings,
    b.studentId = studentId ∧ b.status = .confirmed ∧
      bookingSubject db.slots b = some subject

instance (db : DB) (studentId : Nat) (subject : String) :
    Decidable (HasConfirmedSubject db studentId subject) :=
  inferInstanceAs (Decidable (∃ b ∈ db.bookings,
    b.studentId = studentId ∧ b.status = .confirmed ∧
      bookingSubject db.slots b = some subject))

/-- Modelled from the spec: `createBooking(studentId, slotId)` of the
Booking Engine, executed as a single atomic transaction (spec section 4.1;
the Django bookings app is absent from the sources).  Checks, in order:
slot present (`NotFound`), slot available and in the future
(`SlotUnavailable`), no confirmed booking on the slot (`SlotAlreadyBooked`),
no absence block (`StudentBlocked`), no confirmed same-subject booking by
this student (`DuplicateSubjectBooking`); then inserts one confirmed
booking. -/
def createBooking (now studentId slotId : Nat) (db : DB) :
    Except BookingError (Booking × DB) :=
  match findSlot db slotId with
  | none => .error .NotFound
  | some s =>
    if s.is_available = false ∨ s.startTime ≤ now then
      .error .SlotUnavailable
    else if SlotHasConfirmed db slotId then
      .error .SlotAlreadyBooked
    else if HasBlock db studentId s.subject then
      .error .StudentBlocked
    else if HasConfirmedSubject db studentId s.subject then
      .error .DuplicateSubjectBooking
    else
      let b : Booking := ⟨db.nextBookingId, slotId, studentId, .confirmed⟩
      .ok (b, { db with
                  bookings := db.bookings ++ [b],
                  nextBookingId := db.nextBookingId + 1 })

/-- Modelled from the spec: `cancelBooking(studentId, bookingId)` of the
Booking Engine (spec section 4.1; the Django bookings app is absent from
the sources).  Fails with `NotFound` if the booking is absent or not owned
by the student, with `AlreadyCancelled` if its status is already
cancelled, and otherwise atomically sets the status to cancelled. -/
def cancelBooking (studentId bookingId : Nat) (db : DB) :
    Except BookingError DB :=
  match db.bookings.find? (fun b => b.id == bookingId) with
  | none => .error .NotFound
  | some b =>
    if b.studentId ≠ studentId then
      .error .NotFound
    else if b.status = .cancelled then
      .error .AlreadyCancelled
    else
      .ok { db with
              bookings := db.bookings.map (fun x =>
                if x.id = bookingId then { x with status := .cancelled } else x) }

/-- Capacity invariant: for every slot, at most one booking referencing
that slot has status confirmed (spec section 3). -/
def SlotCapOK (db : DB) : Prop :=
  db.bookings.Pairwise (fun b1 b2 =>
    ¬ (b1.status = .confirmed ∧ b2.status = .confirmed ∧ b1.slotId = b2.slotId))

/-- Subject-exclusivity invariant: for every (student, subject) pair, at
most one confirmed booking exists (spec section 3).  The subject of a
booking is determined through the slot it references; a booking whose slot
reference dangles has no subject and does not participate. -/
def SubjectPairOK (db : DB) : Prop :=
  db.bookings.Pairwise (fun b1 b2 =>
    ¬ (b1.status = .confirmed ∧ b2.status = .confirmed ∧
        b1.studentId = b2.studentId ∧
        bookingSubject db.slots b1 = bookingSubject db.slots b2 ∧
        bookingSubject db.slots b1 ≠ none))

instance (db : DB) : Decidable (SlotCapOK db) :=
  inferInstanceAs (Decidable (db.bookings.Pairwise _))

instance (db : DB) : Decidable (SubjectPairOK db) :=
  inferInstanceAs (Decidable (db.bookings.Pairwise _))

/-- The fixed enumerated subject set (the source hardcodes two subjects;
see the availability README and the frontend copy about "both subjects"). -/
def allowedSubjects : List String := ["Web Development", "Compiler Design"]

/-- Some slot of the given subject is open: `is_available = true`, start
time strictly in the future, and no confirmed booking references it. -/
def SubjectHasOpenSlot (now : Nat) (db : DB) (subject : String) : Prop :=
  ∃ s ∈ db.slots,
    s.is_available = true ∧ now < s.startTime ∧ s.subject = subject ∧
      ¬ SlotHasConfirmed db s.id

instance (now : Nat) (db : DB) (subject : String) :
    Decidable (SubjectHasOpenSlot now db subject) :=
  inferInstanceAs (Decidable (∃ s ∈ db.slots,
    s.is_available = true ∧ now < s.startTime ∧ s.subject = subject ∧
      ¬ SlotHasConfirmed db s.id))

/-- Modelled from the spec: `getAvailabilitySummary()` of the Availability
Summary Service (spec section 4.2; the Django slots app is absent from the
sources).  For each subject of the fixed set it reports whether at least
one open slot of that subject exists; it is a pure read of the store. -/
def getAvailabilitySummary (now : Nat) (db : DB) : List (String × Bool) :=
  allowedSubjects.map (fun subject => (subject, decide (SubjectHasOpenSlot now db subject)))

/-- Seconds per day, used to map a start time to its calendar date. -/
def secondsPerDay : Nat := 86400

/-- A slot is visible to the student: available, in the future, not
confirmed-booked, its subject not blocked for the student, and on the
requested calendar date when a date filter is given. -/
def EligibleSlot (now studentId : Nat) (dateFilter : Option Nat) (db : DB)
    (s : Slot) : Prop :=
  s.is_available = true ∧ now < s.startTime ∧ ¬ SlotHasConfirmed db s.id ∧
    ¬ HasBlock db studentId s.subject ∧
    (∀ d, dateFilter = some d → s.startTime / secondsPerDay = d)

instance (now studentId : Nat) (dateFilter : Option Nat) (db : DB) (s : Slot) :
    Decidable (EligibleSlot now studentId dateFilter db s) :=
  inferInstanceAs (Decidable (_ ∧ _ ∧ _ ∧ _ ∧ ∀ d, dateFilter = some d → _))

/-- Ordering of slots by start time, used inside each subject grouping. -/
def slotLE (a b : Slot) : Prop := a.startTime ≤ b.startTime

instance : DecidableRel slotLE := fun a b => Nat.decLe a.startTime b.startTime

instance : IsTotal Slot slotLE := ⟨fun a b => Nat.le_total a.startTime b.startTime⟩

instance : IsTrans Slot slotLE := ⟨fun _ _ _ h1 h2 => Nat.le_trans h1 h2⟩

/-- Group a slot list by subject, keeping the first-appearance order of
subjects; each group holds the slots of one subject in list order. -/
def subjectGroups (slots : List Slot) : List (List Slot) :=
  ((slots.map (fun s => s.subject)).dedup).map
    (fun subject => slots.filter (fun s => s.subject == subject))

/-- Modelled from the spec: `getAvailableSlots(studentId, dateFilter?)`
(spec section 4.2; the Django slots app is absent from the sources).
Returns the eligible slots ordered by start time ascending within each
subject grouping, together with the student's blocked-subjects list. -/
def getAvailableSlots (now studentId : Nat) (dateFilter : Option Nat)
    (db : DB) : List Slot × List String :=
  let filtered := db.slots.filter
    (fun s => decide (EligibleSlot now studentId dateFilter db s))
  (((subjectGroups filtered).map (fun g => g.insertionSort slotLE)).flatten,
   (db.blocks.filter (fun a => a.studentId == studentId)).map (fun a => a.subject))

/-- Modelled from the spec: a serialization of N concurrent `createBooking`
calls for one slot — each call runs as an atomic transaction against the
shared store, so a concurrent burst is some sequential order of the calls
(spec section 5).  Returns each call's result and the final store. -/
def runCreates (now slotId : Nat) (students : List Nat) (db : DB) :
    List (Except BookingError Booking) × DB :=
  match students with
  | [] => ([], db)
  | sid :: rest =>
    match createBooking now sid slotId db with
    | .ok (b, db1) =>
      let r := runCreates now slotId rest db1
      (.ok b :: r.1, r.2)
    | .error e =>
      let r := runCreates now slotId rest db
      (.error e :: r.1, r.2)

/-- Modelled from the spec: a serialization of N concurrent `cancelBooking`
attempts on one booking by its owner (spec sections 4.1 and 5). -/
def runCancels (studentId bookingId : Nat) (n : Nat) (db : DB) :
    List (Except BookingError DB) × DB :=
  match n with
  | 0 => ([], db)
  | m + 1 =>
    match cancelBooking studentId bookingId db with
    | .ok db1 =>
      let r := runCancels studentId bookingId m db1
      (.ok db1 :: r.1, r.2)
    | .error e =>
      let r := runCancels studentId bookingId m db
      (.error e :: r.1, r.2)

end Scheduler

namespace Frontend

/-- A step item passed to the `Stepper` component (`key`, `label`,
`sublabel`, each possibly absent). -/
structure StepItem where
  key : Option String
  label : Option String
  sublabel : Option String
deriving DecidableEq, Repr

/-- Embedded from `Stepper.jsx`: `Array.isArray(steps) ? steps : []` — a
non-array `steps` prop (modelled as `none`) is treated as the empty list. -/
def stepperSafeSteps (steps : Option (List StepItem)) : List StepItem :=
  steps.getD []

/-- Embedded from `Stepper.jsx`:
`lastIdx = Math.max(0, safeSteps.length - 1)`. -/
def stepperLastIdx (steps : Option (List StepItem)) : Int :=
  max 0 (((stepperSafeSteps steps).length : Int) - 1)

/-- Embedded from `Stepper.jsx`:
`clampedActive = Math.min(Math.max(activeIndex, 0), lastIdx)`. -/
def stepperClampedActive (steps : Option (List StepItem)) (activeIndex : Int) : Int :=
  min (max activeIndex 0) (stepperLastIdx steps)

/-- A JavaScript runtime value, as far as `errorUtils.js` inspects it. -/
inductive JsValue where
  | null
  | undefined
  | bool (b : Bool)
  | num (n : Int)
  | str (s : String)
  | arr (elems : List JsValue)
  | obj (fields : List (String × JsValue))

/-- JavaScript falsiness (`!data`): `null`, `undefined`, `false`, `0` and
the empty string are falsy. -/
def isFalsy : JsValue → Bool
  | .null => true
  | .undefined => true
  | .bool b => !b
  | .num n => n == 0
  | .str s => s.isEmpty
  | .arr _ => false
  | .obj _ => false

/-- Property access with optional chaining (`v?.k`): object fields by
name, array elements by numeric string index, `undefined` otherwise. -/
def getField (v : JsValue) (k : String) : JsValue :=
  match v with
  | .obj fields =>
    match fields.find? (fun p => p.1 == k) with
    | some p => p.2
    | none => .undefined
  | .arr elems =>
    match k.toNat? with
    | some i => elems.getD i .undefined
    | none => .undefined
  | _ => .undefined

/-- `Object.keys(v)`: field names of an object, index strings of an
array, empty otherwise. -/
def jsKeys : JsValue → List String
  | .obj fields => fields.map (fun p => p.1)
  | .arr elems => (List.range elems.length).map (fun i => toString i)
  | _ => []

/-- `typeof v === 'object'`: true for objects, arrays and `null`. -/
def isObjectType : JsValue → Bool
  | .obj _ => true
  | .arr _ => true
  | .null => true
  | _ => false

mutual

/-- `JSON.stringify`, modelled totally on `JsValue` (the inductive model
has no cycles, so the source's `try/catch` never fires). -/
def jsonStringify : JsValue → String
  | .null => "null"
  | .undefined => "null"
  | .bool b => if b then "true" else "false"
  | .num n => toString n
  | .str s => "\"" ++ s ++ "\""
  | .arr elems => "[" ++ jsonStringifyElems elems ++ "]"
  | .obj fields => "\x7b" ++ jsonStringifyFields fields ++ "\x7d"

/-- Array elements of `JSON.stringify`, comma separated. -/
def jsonStringifyElems : List JsValue → String
  | [] => ""
  | [v] => jsonStringify v
  | v :: rest => jsonStringify v ++ "," ++ jsonStringifyElems rest

/-- Object fields of `JSON.stringify`, comma separated. -/
def jsonStringifyFields : List (String × JsValue) → String
  | [] => ""
  | [p] => "\"" ++ p.1 ++ "\":" ++ jsonStringify p.2
  | p :: rest => "\"" ++ p.1 ++ "\":" ++ jsonStringify p.2 ++ "," ++ jsonStringifyFields rest

end

/-- `typeof v === 'string'`, returning the string when it is one. -/
def asStr : JsValue → Option String
  | .str s => some s
  | _ => none

/-- Embedded from `errorUtils.js`, lines 18-19: the two tests applied to
the value of the data's first field — `Array.isArray(v) && typeof v[0] ===
'string'` returning `v[0]`, then `typeof v === 'string'` returning `v`;
`none` when neither test fires. -/
def firstFieldMsg : JsValue → Option String
  | .arr elems => asStr (elems.getD 0 .undefined)
  | v => asStr v

/-- Embedded from `errorUtils.js`, lines 4-30, operating on the already
extracted `data` value (`err?.response?.data`); each
`typeof x === 'string'` test of the source is the `asStr` check. -/
def apiMessageOfData (data : JsValue) (fallback : String) : String :=
  if isFalsy data then fallback
  else match asStr data with
  | some s => s
  | none =>
    match asStr (getField data "detail") with
    | some s => s
    | none =>
      match asStr (getField (getField data "error") "message") with
      | some s => s
      | none =>
        match asStr (getField data "error") with
        | some s => s
        | none =>
          if isObjectType data then
            match (jsKeys data).head? with
            | some firstKey =>
              if firstKey.isEmpty then jsonStringify data
              else (firstFieldMsg (getField data firstKey)).getD
                (jsonStringify data)
            | none => jsonStringify data
          else fallback

/-- Embedded from `errorUtils.js`: `getApiErrorMessage(err, fallback)`,
with `data = err?.response?.data`. -/
def getApiErrorMessage (err : JsValue) (fallback : String) : String :=
  apiMessageOfData (getField (getField err "response") "data") fallback

end Frontend

namespace Scheduler

/-- Example slot: Web Development, starting at time 100. -/
def slotW1 : Slot := ⟨1, "Web Development", 100, 200, 9, true⟩

/-- Example slot: Web Development, starting at time 150. -/
def slotW2 : Slot := ⟨2, "Web Development", 150, 250, 9, true⟩

/-- Example slot: Compiler Design, starting at time 120. -/
def slotW3 : Slot := ⟨3, "Compiler Design", 120, 220, 8, true⟩

/-- Example store with no data at all. -/
def dbEmpty : DB := ⟨[], [], [], 0⟩

/-- Example store: three open slots, no bookings, no blocks. -/
def dbOpen : DB := ⟨[slotW1, slotW2, slotW3], [], [], 20⟩

/-- Example store: student 42 holds a confirmed Web Development booking on
slot 1, and slot 2 (also Web Development) is confirmed-booked by
student 7. -/
def dbBooked : DB :=
  ⟨[slotW1, slotW2, slotW3], [⟨10, 1, 42, .confirmed⟩, ⟨11, 2, 7, .confirmed⟩], [], 20⟩

/-- Example store: student 42 is absence-blocked for Web Development, and
slot 2 (Web Development) is confirmed-booked by student 7. -/
def dbBlocked : DB :=
  ⟨[slotW1, slotW2, slotW3], [⟨11, 2, 7, .confirmed⟩], [⟨42, "Web Development"⟩], 20⟩

/-- Example store: one slot, confirmed-booked by student 42 via
booking 10. -/
def dbCancel : DB := ⟨[slotW1], [⟨10, 1, 42, .confirmed⟩], [], 20⟩

/-- The booking inserted by a successful `createBooking`. -/
def newBooking (sid slid : Nat) (db : DB) : Booking :=
  ⟨db.nextBookingId, slid, sid, .confirmed⟩

/-- The store after a successful `createBooking`. -/
def insertBooking (sid slid : Nat) (db : DB) : DB :=
  { db with
      bookings := db.bookings ++ [newBooking sid slid db],
      nextBookingId := db.nextBookingId + 1 }

/-- The store after a successful `cancelBooking` of booking `bid`. -/
def cancelUpdate (bid : Nat) (db : DB) : DB :=
  { db with
      bookings := db.bookings.map (fun x =>
        if x.id = bid then { x with status := .cancelled } else x) }

theorem createBooking_none (now sid slid : Nat) (db : DB)
    (h : findSlot db slid = none) :
    createBooking now sid slid db = .error .NotFound := by
  simp [createBooking, h]

theorem createBooking_eq_cases (now sid slid : Nat) (db : DB) (s : Slot)
    (h : findSlot db slid = some s) :
    createBooking now sid slid db =
      (if s.is_available = false ∨ s.startTime ≤ now then
        .error .SlotUnavailable
      else if SlotHasConfirmed db slid then
        .error .SlotAlreadyBooked
      else if HasBlock db sid s.subject then
        .error .StudentBlocked
      else if HasConfirmedSubject db sid s.subject then
        .error .DuplicateSubjectBooking
      else
        .ok (newBooking sid slid db, insertBooking sid slid db)) := by
  simp only [createBooking, h, newBooking, insertBooking]

theorem createBooking_err_unavailable (now sid slid : Nat) (db : DB) (s : Slot)
    (h : findSlot db slid = some s)
    (hu : s.is_available = false ∨ s.startTime ≤ now) :
    createBooking now sid slid db = .error .SlotUnavailable := by
  rw [createBooking_eq_cases now sid slid db s h, if_pos hu]

theorem createBooking_err_booked (now sid slid : Nat) (db : DB) (s : Slot)
    (h : findSlot db slid = some s) (ha : s.is_available = true)
    (hf : now < s.startTime) (hb : SlotHasConfirmed db slid) :
    createBooking now sid slid db = .error .SlotAlreadyBooked := by
  rw [createBooking_eq_cases now sid slid db s h,
    if_neg (by simp [ha]; omega), if_pos hb]

theorem createBooking_err_blocked (now sid slid : Nat) (db : DB) (s : Slot)
    (h : findSlot db slid = some s) (ha : s.is_available = true)
    (hf : now < s.startTime) (hnb : ¬ SlotHasConfirmed db slid)
    (hbl : HasBlock db sid s.subject) :
    createBooking now sid slid db = .error .StudentBlocked := by
  rw [createBooking_eq_cases now sid slid db s h,
    if_neg (by simp [ha]; omega), if_neg hnb, if_pos hbl]

theorem createBooking_err_dup (now sid slid : Nat) (db : DB) (s : Slot)
    (h : findSlot db slid = some s) (ha : s.is_available = true)
    (hf : now < s.startTime) (hnb : ¬ SlotHasConfirmed db slid)
    (hnbl : ¬ HasBlock db sid s.subject)
    (hd : HasConfirmedSubject db sid s.subject) :
    createBooking now sid slid db = .error .DuplicateSubjectBooking := by
  rw [createBooking_eq_cases now sid slid db s h,
    if_neg (by simp [ha]; omega), if_neg hnb, if_neg hnbl, if_pos hd]

theorem createBooking_ok_of (now sid slid : Nat) (db : DB) (s : Slot)
    (h : findSlot db slid = some s) (ha : s.is_available = true)
    (hf : now < s.startTime) (hnb : ¬ SlotHasConfirmed db slid)
    (hnbl : ¬ HasBlock db sid s.subject)
    (hnd : ¬ HasConfirmedSubject db sid s.subject) :
    createBooking now sid slid db =
      .ok (newBooking sid slid db, insertBooking sid slid db) := by
  rw [createBooking_eq_cases now sid slid db s h,
    if_neg (by simp [ha]; omega), if_neg hnb, if_neg hnbl, if_neg hnd]

theorem createBooking_ok_dest (now sid slid : Nat) (db : DB) (b : Booking)
    (db' : DB) (h : createBooking now sid slid db = .ok (b, db')) :
    ∃ s, findSlot db slid = some s ∧ s.is_available = true ∧
      now < s.startTime ∧ ¬ SlotHasConfirmed db slid ∧
      ¬ HasBlock db sid s.subject ∧ ¬ HasConfirmedSubject db sid s.subject ∧
      b = newBooking sid slid db ∧ db' = insertBooking sid slid db := by
  cases h0 : findSlot db slid with
  | none => rw [createBooking_none now sid slid db h0] at h; cases h
  | some s =>
    rw [createBooking_eq_cases now sid slid db s h0] at h
    split_ifs at h with h1 h2 h3 h4
    try cases h
    push_neg at h1
    obtain ⟨h1a, h1b⟩ := h1
    exact ⟨s, rfl, by simpa using h1a, by omega, h2, h3, h4, rfl, rfl⟩

theorem cancelBooking_none (sid bid : Nat) (db : DB)
    (h : db.bookings.find? (fun x => x.id == bid) = none) :
    cancelBooking sid bid db = .error .NotFound := by
  simp [cancelBooking, h]

theorem cancelBooking_notOwner (sid bid : Nat) (db : DB) (b : Booking)
    (h : db.bookings.find? (fun x => x.id == bid) = some b)
    (ho : b.studentId ≠ sid) :
    cancelBooking sid bid db = .error .NotFound := by
  simp [cancelBooking, h, ho]

theorem cancelBooking_err_cancelled (sid bid : Nat) (db : DB) (b : Booking)
    (h : db.bookings.find? (fun x => x.id == bid) = some b)
    (ho : b.studentId = sid) (hc : b.status = .cancelled) :
    cancelBooking sid bid db = .error .AlreadyCancelled := by
  simp [cancelBooking, h, ho, hc]

theorem cancelBooking_ok_of (sid bid : Nat) (db : DB) (b : Booking)
    (h : db.bookings.find? (fun x => x.id == bid) = some b)
    (ho : b.studentId = sid) (hc : b.status = .confirmed) :
    cancelBooking sid bid db = .ok (cancelUpdate bid db) := by
  simp [cancelBooking, h, ho, hc, cancelUpdate]

theorem cancelBooking_ok_dest (sid bid : Nat) (db db' : DB)
    (h : cancelBooking sid bid db = .ok db') :
    ∃ b, db.bookings.find? (fun x => x.id == bid) = some b ∧
      b.studentId = sid ∧ b.status = .confirmed ∧ db' = cancelUpdate bid db := by
  cases h0 : db.bookings.find? (fun x => x.id == bid) with
  | none => rw [cancelBooking_none sid bid db h0] at h; cases h
  | some b =>
    simp only [cancelBooking, h0] at h
    split_ifs at h with h1 h2
    try cases h
    refine ⟨b, rfl, by omega, ?_, rfl⟩
    cases hs : b.status with
    | confirmed => rfl
    | cancelled => exact absurd hs h2

theorem cancelUpdate_slots (bid : Nat) (db : DB) :
    (cancelUpdate bid db).slots = db.slots := rfl

theorem cancelUpdate_blocks (bid : Nat) (db : DB) :
    (cancelUpdate bid db).blocks = db.blocks := rfl

theorem insertBooking_slots (sid slid : Nat) (db : DB) :
    (insertBooking sid slid db).slots = db.slots := rfl

theorem insertBooking_blocks (sid slid : Nat) (db : DB) :
    (insertBooking sid slid db).blocks = db.blocks := rfl

theorem cancelMap_id (bid : Nat) (x : Booking) :
    (if x.id = bid then { x with status := BookingStatus.cancelled } else x).id = x.id := by
  split_ifs <;> rfl

theorem cancelMap_slotId (bid : Nat) (x : Booking) :
    (if x.id = bid then { x with status := BookingStatus.cancelled } else x).slotId = x.slotId := by
  split_ifs <;> rfl

theorem cancelMap_studentId (bid : Nat) (x : Booking) :
    (if x.id = bid then { x with status := BookingStatus.cancelled } else x).studentId = x.studentId := by
  split_ifs <;> rfl

theorem cancelMap_status (bid : Nat) (x : Booking)
    (h : (if x.id = bid then { x with status := BookingStatus.cancelled } else x).status
      = BookingStatus.confirmed) :
    x.status = .confirmed := by
  by_cases hx : x.id = bid
  · rw [if_pos hx] at h; cases h
  · rwa [if_neg hx] at h

theorem bookingSubject_congr (slots : List Slot) (x y : Booking)
    (h : x.slotId = y.slotId) :
    bookingSubject slots x = bookingSubject slots y := by
  simp [bookingSubject, h]

theorem bookingSubject_newBooking (sid slid : Nat) (db : DB) (s : Slot)
    (h : findSlot db slid = some s) :
    bookingSubject db.slots (newBooking sid slid db) = some s.subject := by
  simp only [bookingSubject, newBooking]
  rw [show (db.slots.find? (fun t => t.id == slid)) = some s from h]
  rfl

theorem slotCapOK_create (now sid slid : Nat) (db : DB) (b : Booking)
    (db' : DB) (hinv : SlotCapOK db)
    (h : createBooking now sid slid db = .ok (b, db')) : SlotCapOK db' := by
  obtain ⟨s, h0, ha, hf, hnb, hnbl, hnd, hb, hdb⟩ :=
    createBooking_ok_dest now sid slid db b db' h
  subst hb hdb
  unfold SlotCapOK at hinv ⊢
  simp only [insertBooking]
  rw [List.pairwise_append]
  refine ⟨hinv, List.pairwise_singleton _ _, ?_⟩
  intro x hx y hy
  rw [List.mem_singleton] at hy
  subst hy
  rintro ⟨hxc, -, hslot⟩
  exact hnb ⟨x, hx, hslot, hxc⟩

theorem slotCapOK_cancel (sid bid : Nat) (db db' : DB) (hinv : SlotCapOK db)
    (h : cancelBooking sid bid db = .ok db') : SlotCapOK db' := by
  obtain ⟨b, hb, hbs, hbc, hdb⟩ := cancelBooking_ok_dest sid bid db db' h
  subst hdb
  unfold SlotCapOK at hinv ⊢
  simp only [cancelUpdate]
  refine List.Pairwise.map _ ?_ hinv
  intro x y hxy
  rintro ⟨hxc, hyc, hs⟩
  refine hxy ⟨cancelMap_status bid x hxc, cancelMap_status bid y hyc, ?_⟩
  rwa [cancelMap_slotId bid x, cancelMap_slotId bid y] at hs

theorem subjectPairOK_create (now sid slid : Nat) (db : DB) (b : Booking)
    (db' : DB) (hinv : SubjectPairOK db)
    (h : createBooking now sid slid db = .ok (b, db')) : SubjectPairOK db' := by
  obtain ⟨s, h0, ha, hf, hnb, hnbl, hnd, hb, hdb⟩ :=
    createBooking_ok_dest now sid slid db b db' h
  subst hb hdb
  unfold SubjectPairOK at hinv ⊢
  simp only [insertBooking]
  rw [List.pairwise_append]
  refine ⟨hinv, List.pairwise_singleton _ _, ?_⟩
  intro x hx y hy
  rw [List.mem_singleton] at hy
  subst hy
  rintro ⟨hxc, -, hstu, hsub, -⟩
  have hnew : bookingSubject db.slots (newBooking sid slid db) = some s.subject :=
    bookingSubject_newBooking sid slid db s h0
  apply hnd
  refine ⟨x, hx, ?_, hxc, ?_⟩
  · simpa [newBooking] using hstu
  · rw [hsub, hnew]

theorem subjectPairOK_cancel (sid bid : Nat) (db db' : DB)
    (hinv : SubjectPairOK db)
    (h : cancelBooking sid bid db = .ok db') : SubjectPairOK db' := by
  obtain ⟨b, hb, hbs, hbc, hdb⟩ := cancelBooking_ok_dest sid bid db db' h
  subst hdb
  unfold SubjectPairOK at hinv ⊢
  simp only [cancelUpdate]
  refine List.Pairwise.map _ ?_ hinv
  intro x y hxy
  rintro ⟨hxc, hyc, hstu, hsub, hne⟩
  refine hxy ⟨cancelMap_status bid x hxc, cancelMap_status bid y hyc, ?_, ?_, ?_⟩
  · rwa [cancelMap_studentId bid x, cancelMap_studentId bid y] at hstu
  · rwa [bookingSubject_congr db.slots _ x (cancelMap_slotId bid x),
      bookingSubject_congr db.slots _ y (cancelMap_slotId bid y)] at hsub
  · rwa [bookingSubject_congr db.slots _ x (cancelMap_slotId bid x)] at hne

theorem findSlot_congr (db db' : DB) (slid : Nat) (h : db'.slots = db.slots) :
    findSlot db' slid = findSlot db slid := by
  simp [findSlot, h]

theorem insertBooking_hasConfirmed (sid slid : Nat) (db : DB) :
    SlotHasConfirmed (insertBooking sid slid db) slid := by
  refine ⟨newBooking sid slid db, ?_, rfl, rfl⟩
  simp [insertBooking]

theorem runCreates_booked (now slid : Nat) (students : List Nat) (db : DB)
    (s : Slot) (h : findSlot db slid = some s) (ha : s.is_available = true)
    (hf : now < s.startTime) (hb : SlotHasConfirmed db slid) :
    (runCreates now slid students db).1 =
      students.map (fun _ => .error .SlotAlreadyBooked) ∧
    (runCreates now slid students db).2 = db := by
  induction students with
  | nil => simp [runCreates]
  | cons sid rest ih =>
    have hc := createBooking_err_booked now sid slid db s h ha hf hb
    simp [runCreates, hc, ih]

theorem runCreates_race (now slid sid : Nat) (rest : List Nat) (db : DB)
    (s : Slot) (h : findSlot db slid = some s) (ha : s.is_available = true)
    (hf : now < s.startTime) (hopen : ¬ SlotHasConfirmed db slid)
    (hnbl : ¬ HasBlock db sid s.subject)
    (hnd : ¬ HasConfirmedSubject db sid s.subject) :
    (runCreates now slid (sid :: rest) db).1 =
      .ok (newBooking sid slid db) ::
        rest.map (fun _ => .error .SlotAlreadyBooked) := by
  have hok := createBooking_ok_of now sid slid db s h ha hf hopen hnbl hnd
  have h1 : findSlot (insertBooking sid slid db) slid = some s := by
    rw [findSlot_congr db (insertBooking sid slid db) slid
      (insertBooking_slots sid slid db), h]
  have hrest := runCreates_booked now slid rest (insertBooking sid slid db) s h1
    ha hf (insertBooking_hasConfirmed sid slid db)
  simp [runCreates, hok, hrest.1]

theorem find_cancelMap (bid : Nat) (l : List Booking) (b : Booking)
    (h : l.find? (fun x => x.id == bid) = some b) :
    (l.map (fun x => if x.id = bid then { x with status := BookingStatus.cancelled } else x)).find?
        (fun x => x.id == bid)
      = some { b with status := BookingStatus.cancelled } := by
  induction l with
  | nil => cases h
  | cons y ys ih =>
    by_cases hy : y.id = bid
    · rw [List.find?_cons_of_pos _ (by simp [hy])] at h
      have hb : y = b := Option.some.inj h
      subst hb
      rw [List.map_cons, if_pos hy,
        List.find?_cons_of_pos _ (by simp [hy])]
    · rw [List.find?_cons_of_neg _ (by simp [hy])] at h
      rw [List.map_cons, if_neg hy,
        List.find?_cons_of_neg _ (by simp [hy])]
      exact ih h

theorem runCancels_cancelled (sid bid n : Nat) (db : DB) (b : Booking)
    (h : db.bookings.find? (fun x => x.id == bid) = some b)
    (ho : b.studentId = sid) (hc : b.status = .cancelled) :
    (runCancels sid bid n db).1 =
      List.replicate n (.error .AlreadyCancelled) := by
  induction n with
  | zero => simp [runCancels]
  | succ m ih =>
    have he := cancelBooking_err_cancelled sid bid db b h ho hc
    simp [runCancels, he, ih, List.replicate_succ]

theorem runCancels_race (sid bid n : Nat) (db : DB) (b : Booking)
    (h : db.bookings.find? (fun x => x.id == bid) = some b)
    (ho : b.studentId = sid) (hc : b.status = .confirmed) :
    (runCancels sid bid (n + 1) db).1 =
      .ok (cancelUpdate bid db) ::
        List.replicate n (.error .AlreadyCancelled) := by
  have hok := cancelBooking_ok_of sid bid db b h ho hc
  have h1 : (cancelUpdate bid db).bookings.find? (fun x => x.id == bid)
      = some { b with status := BookingStatus.cancelled } :=
    find_cancelMap bid db.bookings b h
  have hrest := runCancels_cancelled sid bid n (cancelUpdate bid db)
    { b with status := BookingStatus.cancelled } h1 ho rfl
  simp [runCancels, hok, hrest]

theorem hasBlock_congr (db db' : DB) (sid : Nat) (subject : String)
    (h : db'.blocks = db.blocks) :
    HasBlock db' sid subject ↔ HasBlock db sid subject := by
  simp [HasBlock, h]

theorem cancelUpdate_not_confirmed (bid slid : Nat) (db : DB)
    (huniq : ∀ x ∈ db.bookings, x.status = .confirmed → x.slotId = slid → x.id = bid) :
    ¬ SlotHasConfirmed (cancelUpdate bid db) slid := by
  rintro ⟨y, hy, hys, hyc⟩
  simp only [cancelUpdate] at hy
  rcases List.mem_map.1 hy with ⟨x, hx, rfl⟩
  by_cases hxid : x.id = bid
  · rw [if_pos hxid] at hyc
    cases hyc
  · rw [if_neg hxid] at hys hyc
    exact hxid (huniq x hx hyc hys)

theorem cancelUpdate_not_subject (bid : Nat) (db : DB) (sid : Nat)
    (subject : String) (hno : ¬ HasConfirmedSubject db sid subject) :
    ¬ HasConfirmedSubject (cancelUpdate bid db) sid subject := by
  rintro ⟨y, hy, hystu, hyc, hysub⟩
  simp only [cancelUpdate] at hy
  rcases List.mem_map.1 hy with ⟨x, hx, rfl⟩
  apply hno
  refine ⟨x, hx, ?_, cancelMap_status bid x hyc, ?_⟩
  · rw [← cancelMap_studentId bid x]; exact hystu
  · rw [cancelUpdate_slots] at hysub
    rw [← bookingSubject_congr db.slots _ x (cancelMap_slotId bid x)]
    exact hysub

/-- C1: for every slot at most one confirmed booking references it; the
invariant is preserved by every successful `createBooking` and
`cancelBooking`, and a serialization of N concurrent `createBooking`
calls on one open slot has exactly the first call succeed while the other
N-1 fail with `SlotAlreadyBooked`. -/
theorem claim_C1 :
    (∀ now sid slid db b db', SlotCapOK db →
        createBooking now sid slid db = .ok (b, db') → SlotCapOK db') ∧
    (∀ sid bid db db', SlotCapOK db →
        cancelBooking sid bid db = .ok db' → SlotCapOK db') ∧
    (∀ now slid sid rest db s, findSlot db slid = some s →
        s.is_available = true → now < s.startTime →
        ¬ SlotHasConfirmed db slid → ¬ HasBlock db sid s.subject →
        ¬ HasConfirmedSubject db sid s.subject →
        (runCreates now slid (sid :: rest) db).1 =
          .ok (newBooking sid slid db) ::
            rest.map (fun _ => .error .SlotAlreadyBooked)) :=
  ⟨fun now sid slid db b db' hi h => slotCapOK_create now sid slid db b db' hi h,
   fun sid bid db db' hi h => slotCapOK_cancel sid bid db db' hi h,
   fun now slid sid rest db s h ha hf ho hb hd =>
     runCreates_race now slid sid rest db s h ha hf ho hb hd⟩

/-- Witness for C1 at a concrete store: booking slot 1 in the open store
preserves the capacity invariant, cancelling preserves it, and a race of
students 42 and 7 on slot 1 has 42 win and 7 get `SlotAlreadyBooked`. -/
theorem claim_C1_witness :
    SlotCapOK (insertBooking 42 1 dbOpen) ∧
    SlotCapOK (cancelUpdate 10 dbCancel) ∧
    (runCreates 0 1 [42, 7] dbOpen).1 =
      [.ok (newBooking 42 1 dbOpen), .error .SlotAlreadyBooked] :=
  ⟨claim_C1.1 0 42 1 dbOpen _ _ (by decide) rfl,
   claim_C1.2.1 42 10 dbCancel _ (by decide) rfl,
   claim_C1.2.2 0 1 42 [7] dbOpen slotW1 rfl rfl (by decide) (by decide)
     (by decide) (by decide)⟩

/-- C2 (amended): for every (student, subject) pair at most one confirmed
booking exists; the invariant is preserved by every successful
`createBooking` and `cancelBooking`; and `createBooking` fails with
`DuplicateSubjectBooking` when the student already holds a confirmed
same-subject booking, provided the earlier checks pass (slot present,
available, in the future, not already confirmed-booked, student not
blocked). -/
theorem claim_C2 :
    (∀ now sid slid db b db', SubjectPairOK db →
        createBooking now sid slid db = .ok (b, db') → SubjectPairOK db') ∧
    (∀ sid bid db db', SubjectPairOK db →
        cancelBooking sid bid db = .ok db' → SubjectPairOK db') ∧
    (∀ now sid slid db s, findSlot db slid = some s →
        s.is_available = true → now < s.startTime →
        ¬ SlotHasConfirmed db slid → ¬ HasBlock db sid s.subject →
        HasConfirmedSubject db sid s.subject →
        createBooking now sid slid db = .error .DuplicateSubjectBooking) :=
  ⟨fun now sid slid db b db' hi h => subjectPairOK_create now sid slid db b db' hi h,
   fun sid bid db db' hi h => subjectPairOK_cancel sid bid db db' hi h,
   fun now sid slid db s h ha hf hnb hnbl hd =>
     createBooking_err_dup now sid slid db s h ha hf hnb hnbl hd⟩

/-- Counterexample to C2 as stated: in `dbBooked` student 42 already holds
a confirmed Web Development booking, yet booking slot 2 (also Web
Development, but already confirmed-booked by student 7) fails with
`SlotAlreadyBooked`, not `DuplicateSubjectBooking` — the slot-capacity
check runs first. -/
theorem claim_C2_cx :
    HasConfirmedSubject dbBooked 42 "Web Development" ∧
    (findSlot dbBooked 2).map (fun s => s.subject) = some "Web Development" ∧
    createBooking 0 42 2 dbBooked = .error .SlotAlreadyBooked ∧
    ¬ createBooking 0 42 2 dbBooked = .error .DuplicateSubjectBooking :=
  ⟨by decide, rfl, rfl, fun h => by cases rfl.symm.trans h⟩

/-- Witness for C2 at a concrete store: the pair invariant survives a
successful booking and a successful cancel, and a duplicate same-subject
attempt on an otherwise bookable slot fails with
`DuplicateSubjectBooking`. -/
theorem claim_C2_witness :
    SubjectPairOK (insertBooking 42 1 dbOpen) ∧
    SubjectPairOK (cancelUpdate 10 dbCancel) ∧
    createBooking 0 42 2 ⟨[slotW1, slotW2], [⟨10, 1, 42, .confirmed⟩], [], 20⟩
      = .error .DuplicateSubjectBooking :=
  ⟨claim_C2.1 0 42 1 dbOpen _ _ (by decide) rfl,
   claim_C2.2.1 42 10 dbCancel _ (by decide) rfl,
   claim_C2.2.2 0 42 2 ⟨[slotW1, slotW2], [⟨10, 1, 42, .confirmed⟩], [], 20⟩
     slotW2 rfl rfl (by decide) (by decide) (by decide) (by decide)⟩

/-- C5: `cancelBooking` fails with `NotFound` exactly when the booking is
absent or not owned by the student, with `AlreadyCancelled` exactly when
it is owned and already cancelled, succeeds exactly when it is owned and
confirmed (atomically setting the status), and a serialization of N+1
concurrent cancel attempts on one confirmed booking has exactly the first
succeed while the rest get `AlreadyCancelled`. -/
theorem claim_C5 :
    (∀ sid bid db, cancelBooking sid bid db = .error .NotFound ↔
      db.bookings.find? (fun x => x.id == bid) = none ∨
        ∃ b, db.bookings.find? (fun x => x.id == bid) = some b ∧
          b.studentId ≠ sid) ∧
    (∀ sid bid db, cancelBooking sid bid db = .error .AlreadyCancelled ↔
      ∃ b, db.bookings.find? (fun x => x.id == bid) = some b ∧
        b.studentId = sid ∧ b.status = .cancelled) ∧
    (∀ sid bid db db', cancelBooking sid bid db = .ok db' ↔
      (∃ b, db.bookings.find? (fun x => x.id == bid) = some b ∧
        b.studentId = sid ∧ b.status = .confirmed) ∧
        db' = cancelUpdate bid db) ∧
    (∀ sid bid n db b, db.bookings.find? (fun x => x.id == bid) = some b →
      b.studentId = sid → b.status = .confirmed →
      (runCancels sid bid (n + 1) db).1 =
        .ok (cancelUpdate bid db) ::
          List.replicate n (.error .AlreadyCancelled)) := by
  refine ⟨?_, ?_, ?_, ?_⟩
  · intro sid bid db
    constructor
    · intro h
      cases h0 : db.bookings.find? (fun x => x.id == bid) with
      | none => exact Or.inl rfl
      | some b =>
        refine Or.inr ⟨b, rfl, ?_⟩
        intro ho
        cases hs : b.status with
        | confirmed => rw [cancelBooking_ok_of sid bid db b h0 ho hs] at h; cases h
        | cancelled => rw [cancelBooking_err_cancelled sid bid db b h0 ho hs] at h; cases h
    · rintro (h0 | ⟨b, h0, ho⟩)
      · exact cancelBooking_none sid bid db h0
      · exact cancelBooking_notOwner sid bid db b h0 ho
  · intro sid bid db
    constructor
    · intro h
      cases h0 : db.bookings.find? (fun x => x.id == bid) with
      | none => rw [cancelBooking_none sid bid db h0] at h; cases h
      | some b =>
        refine ⟨b, rfl, ?_⟩
        by_cases ho : b.studentId = sid
        · cases hs : b.status with
          | confirmed => rw [cancelBooking_ok_of sid bid db b h0 ho hs] at h; cases h
          | cancelled => exact ⟨ho, rfl⟩
        · rw [cancelBooking_notOwner sid bid db b h0 ho] at h; cases h
    · rintro ⟨b, h0, ho, hs⟩
      exact cancelBooking_err_cancelled sid bid db b h0 ho hs
  · intro sid bid db db'
    constructor
    · intro h
      obtain ⟨b, h0, ho, hs, hdb⟩ := cancelBooking_ok_dest sid bid db db' h
      exact ⟨⟨b, h0, ho, hs⟩, hdb⟩
    · rintro ⟨⟨b, h0, ho, hs⟩, hdb⟩
      rw [hdb]
      exact cancelBooking_ok_of sid bid db b h0 ho hs
  · intro sid bid n db b h0 ho hs
    exact runCancels_race sid bid n db b h0 ho hs

/-- Witness for C5 at a concrete store: cancelling the confirmed booking
10 in `dbCancel` succeeds, and three serialized cancel attempts yield one
success then two `AlreadyCancelled`. -/
theorem claim_C5_witness :
    cancelBooking 42 10 dbCancel = .ok (cancelUpdate 10 dbCancel) ∧
    (runCancels 42 10 3 dbCancel).1 =
      [.ok (cancelUpdate 10 dbCancel), .error .AlreadyCancelled,
        .error .AlreadyCancelled] :=
  ⟨(claim_C5.2.2.1 42 10 dbCancel (cancelUpdate 10 dbCancel)).2
     ⟨⟨⟨10, 1, 42, .confirmed⟩, rfl, rfl, rfl⟩, rfl⟩,
   claim_C5.2.2.2 42 10 2 dbCancel ⟨10, 1, 42, .confirmed⟩ rfl rfl rfl⟩

/-- C6 (amended): a student with an absence block for subject X can never
create a confirmed booking for a slot of subject X; and when such a slot
passes the earlier checks (present, available, in the future, not already
confirmed-booked), the attempt returns `StudentBlocked` — on any error the
store is unchanged, since only a successful call returns a new store. -/
theorem claim_C6 :
    (∀ now sid slid db s b db', findSlot db slid = some s →
        HasBlock db sid s.subject →
        ¬ createBooking now sid slid db = .ok (b, db')) ∧
    (∀ now sid slid db s, findSlot db slid = some s →
        s.is_available = true → now < s.startTime →
        ¬ SlotHasConfirmed db slid → HasBlock db sid s.subject →
        createBooking now sid slid db = .error .StudentBlocked) := by
  constructor
  · intro now sid slid db s b db' h hbl hok
    obtain ⟨t, h0, -, -, -, hnbl, -, -, -⟩ :=
      createBooking_ok_dest now sid slid db b db' hok
    rw [h] at h0
    cases h0
    exact hnbl hbl
  · intro now sid slid db s h ha hf hnb hbl
    exact createBooking_err_blocked now sid slid db s h ha hf hnb hbl

/-- Counterexample to C6 as stated: in `dbBlocked` student 42 holds an
absence block for Web Development, yet booking slot 2 (Web Development,
already confirmed-booked by student 7) fails with `SlotAlreadyBooked`,
not `StudentBlocked` — the capacity check runs before the block check. -/
theorem claim_C6_cx :
    HasBlock dbBlocked 42 "Web Development" ∧
    (findSlot dbBlocked 2).map (fun s => s.subject) = some "Web Development" ∧
    createBooking 0 42 2 dbBlocked = .error .SlotAlreadyBooked ∧
    ¬ createBooking 0 42 2 dbBlocked = .error .StudentBlocked :=
  ⟨by decide, rfl, rfl, fun h => by cases rfl.symm.trans h⟩

/-- Witness for C6 at a concrete store: blocked student 42 cannot book
the open Web Development slot 1, and the attempt returns
`StudentBlocked`. -/
theorem claim_C6_witness :
    ¬ createBooking 0 42 1 dbBlocked
        = .ok (newBooking 42 1 dbBlocked, insertBooking 42 1 dbBlocked) ∧
    createBooking 0 42 1 dbBlocked = .error .StudentBlocked :=
  ⟨claim_C6.1 0 42 1 dbBlocked slotW1 _ _ rfl (by decide),
   claim_C6.2 0 42 1 dbBlocked slotW1 rfl rfl (by decide) (by decide) (by decide)⟩

/-- C8: after the only confirmed booking on slot S is cancelled by its
owner, a `createBooking` on S by a different, unblocked student without a
same-subject confirmed booking succeeds. -/
theorem claim_C8 (now A B bid slid : Nat) (db db1 : DB) (s : Slot)
    (hcancel : cancelBooking A bid db = .ok db1)
    (hslot : findSlot db slid = some s)
    (ha : s.is_available = true) (hf : now < s.startTime)
    (huniq : ∀ x ∈ db.bookings, x.status = .confirmed → x.slotId = slid →
      x.id = bid)
    (_hAB : B ≠ A)
    (hnbl : ¬ HasBlock db B s.subject)
    (hnd : ¬ HasConfirmedSubject db B s.subject) :
    createBooking now B slid db1
      = .ok (newBooking B slid db1, insertBooking B slid db1) := by
  obtain ⟨b, hb, hbs, hbc, hdb1⟩ := cancelBooking_ok_dest A bid db db1 hcancel
  subst hdb1
  refine createBooking_ok_of now B slid _ s ?_ ha hf ?_ ?_ ?_
  · rw [findSlot_congr db _ slid (cancelUpdate_slots bid db)]
    exact hslot
  · exact cancelUpdate_not_confirmed bid slid db huniq
  · rw [hasBlock_congr db _ B s.subject (cancelUpdate_blocks bid db)]
    exact hnbl
  · exact cancelUpdate_not_subject bid db B s.subject hnd

theorem subjectGroups_mem (l : List Slot) (s : Slot) :
    (∃ g ∈ subjectGroups l, s ∈ g) ↔ s ∈ l := by
  constructor
  · rintro ⟨g, hg, hs⟩
    rcases List.mem_map.1 hg with ⟨subject, hsub, rfl⟩
    exact (List.mem_filter.1 hs).1
  · intro hs
    refine ⟨l.filter (fun t => t.subject == s.subject), ?_, ?_⟩
    · exact List.mem_map.2
        ⟨s.subject, List.mem_dedup.2 (List.mem_map.2 ⟨s, hs, rfl⟩), rfl⟩
    · exact List.mem_filter.2 ⟨hs, by simp⟩

theorem getAvailableSlots_mem (now sid : Nat) (df : Option Nat) (db : DB)
    (s : Slot) :
    s ∈ (getAvailableSlots now sid df db).1 ↔
      s ∈ db.slots ∧ EligibleSlot now sid df db s := by
  simp only [getAvailableSlots]
  rw [List.mem_flatten]
  constructor
  · rintro ⟨l, hl, hs⟩
    rcases List.mem_map.1 hl with ⟨g, hg, rfl⟩
    have hs' : s ∈ g := (List.mem_insertionSort slotLE).1 hs
    have hmem := (subjectGroups_mem _ s).1 ⟨g, hg, hs'⟩
    have h2 := List.mem_filter.1 hmem
    exact ⟨h2.1, of_decide_eq_true h2.2⟩
  · rintro ⟨hs, he⟩
    have hf : s ∈ db.slots.filter
        (fun t => decide (EligibleSlot now sid df db t)) :=
      List.mem_filter.2 ⟨hs, decide_eq_true he⟩
    obtain ⟨g, hg, hsg⟩ := (subjectGroups_mem _ s).2 hf
    exact ⟨g.insertionSort slotLE, List.mem_map.2 ⟨g, hg, rfl⟩,
      (List.mem_insertionSort slotLE).2 hsg⟩

theorem getAvailableSlots_groups (now sid : Nat) (df : Option Nat) (db : DB) :
    ∃ groups : List (List Slot), (getAvailableSlots now sid df db).1 = groups.flatten ∧
      (∀ g ∈ groups, g ≠ [] ∧ List.Sorted slotLE g ∧
        ∀ a ∈ g, ∀ b ∈ g, a.subject = b.subject) ∧
      groups.Pairwise (fun g1 g2 => ∀ a ∈ g1, ∀ b ∈ g2, a.subject ≠ b.subject) := by
  refine ⟨(subjectGroups (db.slots.filter
      (fun t => decide (EligibleSlot now sid df db t)))).map
        (fun g => List.insertionSort slotLE g), rfl, ?_, ?_⟩
  · intro g hg
    rcases List.mem_map.1 hg with ⟨g0, hg0, rfl⟩
    rcases List.mem_map.1 hg0 with ⟨subject, hsub, rfl⟩
    refine ⟨?_, List.sorted_insertionSort slotLE _, ?_⟩
    · rcases List.mem_map.1 (List.mem_dedup.1 hsub) with ⟨s, hsf, hsubj⟩
      have hsg : s ∈ (db.slots.filter
          (fun t => decide (EligibleSlot now sid df db t))).filter
            (fun t => t.subject == subject) :=
        List.mem_filter.2 ⟨hsf, by simp [hsubj]⟩
      exact List.ne_nil_of_mem ((List.mem_insertionSort slotLE).2 hsg)
    · intro a ha b hb
      have ha2 := (List.mem_filter.1 ((List.mem_insertionSort slotLE).1 ha)).2
      have hb2 := (List.mem_filter.1 ((List.mem_insertionSort slotLE).1 hb)).2
      rw [beq_iff_eq] at ha2 hb2
      rw [ha2, hb2]
  · unfold subjectGroups
    rw [List.map_map]
    refine List.Pairwise.map _ ?_ (List.nodup_dedup _)
    intro s1 s2 hne a ha b hb
    simp only [Function.comp] at ha hb
    have ha2 := (List.mem_filter.1 ((List.mem_insertionSort slotLE).1 ha)).2
    have hb2 := (List.mem_filter.1 ((List.mem_insertionSort slotLE).1 hb)).2
    rw [beq_iff_eq] at ha2 hb2
    rw [ha2, hb2]
    exact hne

theorem getAvailableSlots_blocked (now sid : Nat) (df : Option Nat) (db : DB)
    (x : String) :
    x ∈ (getAvailableSlots now sid df db).2 ↔
      ∃ a ∈ db.blocks, a.studentId = sid ∧ a.subject = x := by
  simp only [getAvailableSlots, List.mem_map, List.mem_filter]
  constructor
  · rintro ⟨a, ⟨ha, has⟩, rfl⟩
    exact ⟨a, ha, by simpa using has, rfl⟩
  · rintro ⟨a, ha, has, rfl⟩
    exact ⟨a, ⟨ha, by simpa using has⟩, rfl⟩

/-- C3: `getAvailabilitySummary` lists exactly the fixed subject set, and
reports true for a subject iff some slot of that subject is available,
strictly in the future and not confirmed-booked; on an empty slot store it
does not fail and reports false for every subject. -/
theorem claim_C3 :
    (∀ now db, (getAvailabilitySummary now db).map Prod.fst = allowedSubjects) ∧
    (∀ now db subject b, (subject, b) ∈ getAvailabilitySummary now db →
      (b = true ↔ ∃ s ∈ db.slots, s.is_available = true ∧ now < s.startTime ∧
        s.subject = subject ∧ ¬ SlotHasConfirmed db s.id)) ∧
    (∀ now db, db.slots = [] →
      getAvailabilitySummary now db
        = allowedSubjects.map (fun subject => (subject, false))) := by
  refine ⟨fun now db => rfl, ?_, ?_⟩
  · intro now db subject b h
    rcases List.mem_map.1 h with ⟨x, hx, hfx⟩
    cases hfx
    exact decide_eq_true_iff
  · intro now db h
    simp [getAvailabilitySummary, SubjectHasOpenSlot, h]

/-- Witness for C3 at concrete stores: the empty store reports false for
both subjects, and in the open store the Web Development entry is true
with slot 1 as the open slot behind it. -/
theorem claim_C3_witness :
    getAvailabilitySummary 0 dbEmpty
      = allowedSubjects.map (fun subject => (subject, false)) ∧
    (∃ s ∈ dbOpen.slots, s.is_available = true ∧ 0 < s.startTime ∧
      s.subject = "Web Development" ∧ ¬ SlotHasConfirmed dbOpen s.id) :=
  ⟨claim_C3.2.2 0 dbEmpty rfl,
   (claim_C3.2.1 0 dbOpen "Web Development" true (by decide)).1 rfl⟩

/-- C7: `getAvailableSlots` returns exactly the slots that are available,
in the future, not confirmed-booked, not of a subject blocked for the
student, and on the requested date when filtered; the returned sequence is
a concatenation of nonempty per-subject groups — each sorted by start time
ascending, each holding the slots of a single subject, and no two groups
sharing a subject, so all slots of one subject are contiguous and in
ascending start-time order; the blocked subjects are surfaced as a
separate list; and no returned slot belongs to a blocked subject. -/
theorem claim_C7 : ∀ now sid df db,
    (∀ s, s ∈ (getAvailableSlots now sid df db).1 ↔
      s ∈ db.slots ∧ EligibleSlot now sid df db s) ∧
    (∃ groups : List (List Slot), (getAvailableSlots now sid df db).1 = groups.flatten ∧
      (∀ g ∈ groups, g ≠ [] ∧ List.Sorted slotLE g ∧
        ∀ a ∈ g, ∀ b ∈ g, a.subject = b.subject) ∧
      groups.Pairwise (fun g1 g2 => ∀ a ∈ g1, ∀ b ∈ g2, a.subject ≠ b.subject)) ∧
    (∀ x, x ∈ (getAvailableSlots now sid df db).2 ↔
      ∃ a ∈ db.blocks, a.studentId = sid ∧ a.subject = x) ∧
    (∀ s, s ∈ (getAvailableSlots now sid df db).1 →
      ¬ HasBlock db sid s.subject) := by
  intro now sid df db
  refine ⟨fun s => getAvailableSlots_mem now sid df db s,
    getAvailableSlots_groups now sid df db,
    fun x => getAvailableSlots_blocked now sid df db x,
    ?_⟩
  intro s hs
  exact ((getAvailableSlots_mem now sid df db s).1 hs).2.2.2.2.1

/-- Witness for C7 at a concrete store: for the blocked student 42 the
visible slots are exactly slot 3 (Compiler Design), the blocked-subjects
list contains Web Development, and the result decomposes into nonempty
sorted single-subject groups with pairwise-distinct subjects. -/
theorem claim_C7_witness :
    (slotW3 ∈ (getAvailableSlots 0 42 none dbBlocked).1 ↔
      slotW3 ∈ dbBlocked.slots ∧ EligibleSlot 0 42 none dbBlocked slotW3) ∧
    ("Web Development" ∈ (getAvailableSlots 0 42 none dbBlocked).2 ↔
      ∃ a ∈ dbBlocked.blocks, a.studentId = 42 ∧
        a.subject = "Web Development") ∧
    (∃ groups : List (List Slot), (getAvailableSlots 0 42 none dbBlocked).1 = groups.flatten ∧
      (∀ g ∈ groups, g ≠ [] ∧ List.Sorted slotLE g ∧
        ∀ a ∈ g, ∀ b ∈ g, a.subject = b.subject) ∧
      groups.Pairwise (fun g1 g2 => ∀ a ∈ g1, ∀ b ∈ g2, a.subject ≠ b.subject)) :=
  ⟨(claim_C7 0 42 none dbBlocked).1 slotW3,
   (claim_C7 0 42 none dbBlocked).2.2.1 "Web Development",
   (claim_C7 0 42 none dbBlocked).2.1⟩

/-- C4: exact characterization of `createBooking`, reflecting the check
order — each error demands that all earlier checks pass: `NotFound` iff
the slot is absent; `SlotUnavailable` iff present but hidden or past;
`SlotAlreadyBooked` iff additionally a confirmed booking references the
slot; `StudentBlocked` iff additionally an absence block exists;
`DuplicateSubjectBooking` iff additionally the student holds a confirmed
same-subject booking; success iff every check passes, inserting exactly
one new confirmed booking. -/
theorem claim_C4 : ∀ now sid slid db,
    (createBooking now sid slid db = .error .NotFound ↔
      findSlot db slid = none) ∧
    (createBooking now sid slid db = .error .SlotUnavailable ↔
      ∃ s, findSlot db slid = some s ∧
        (s.is_available = false ∨ s.startTime ≤ now)) ∧
    (createBooking now sid slid db = .error .SlotAlreadyBooked ↔
      ∃ s, findSlot db slid = some s ∧ s.is_available = true ∧
        now < s.startTime ∧ SlotHasConfirmed db slid) ∧
    (createBooking now sid slid db = .error .StudentBlocked ↔
      ∃ s, findSlot db slid = some s ∧ s.is_available = true ∧
        now < s.startTime ∧ ¬ SlotHasConfirmed db slid ∧
        HasBlock db sid s.subject) ∧
    (createBooking now sid slid db = .error .DuplicateSubjectBooking ↔
      ∃ s, findSlot db slid = some s ∧ s.is_available = true ∧
        now < s.startTime ∧ ¬ SlotHasConfirmed db slid ∧
        ¬ HasBlock db sid s.subject ∧
        HasConfirmedSubject db sid s.subject) ∧
    (∀ b db', createBooking now sid slid db = .ok (b, db') ↔
      (∃ s, findSlot db slid = some s ∧ s.is_available = true ∧
        now < s.startTime ∧ ¬ SlotHasConfirmed db slid ∧
        ¬ HasBlock db sid s.subject ∧
        ¬ HasConfirmedSubject db sid s.subject) ∧
      b = newBooking sid slid db ∧ db' = insertBooking sid slid db) := by
  intro now sid slid db
  refine ⟨?_, ?_, ?_, ?_, ?_, ?_⟩
  · constructor
    · intro h
      cases h0 : findSlot db slid with
      | none => rfl
      | some s =>
        rw [createBooking_eq_cases now sid slid db s h0] at h
        split_ifs at h <;> cases h
    · exact createBooking_none now sid slid db
  · constructor
    · intro h
      cases h0 : findSlot db slid with
      | none => rw [createBooking_none now sid slid db h0] at h; cases h
      | some s =>
        rw [createBooking_eq_cases now sid slid db s h0] at h
        split_ifs at h with h1 h2 h3 h4 <;> try cases h
        exact ⟨s, rfl, h1⟩
    · rintro ⟨s, h0, hu⟩
      exact createBooking_err_unavailable now sid slid db s h0 hu
  · constructor
    · intro h
      cases h0 : findSlot db slid with
      | none => rw [createBooking_none now sid slid db h0] at h; cases h
      | some s =>
        rw [createBooking_eq_cases now sid slid db s h0] at h
        split_ifs at h with h1 h2 h3 h4 <;> try cases h
        push_neg at h1
        exact ⟨s, rfl, by simpa using h1.1, by omega, h2⟩
    · rintro ⟨s, h0, ha, hf, hb⟩
      exact createBooking_err_booked now sid slid db s h0 ha hf hb
  · constructor
    · intro h
      cases h0 : findSlot db slid with
      | none => rw [createBooking_none now sid slid db h0] at h; cases h
      | some s =>
        rw [createBooking_eq_cases now sid slid db s h0] at h
        split_ifs at h with h1 h2 h3 h4 <;> try cases h
        push_neg at h1
        exact ⟨s, rfl, by simpa using h1.1, by omega, h2, h3⟩
    · rintro ⟨s, h0, ha, hf, hnb, hbl⟩
      exact createBooking_err_blocked now sid slid db s h0 ha hf hnb hbl
  · constructor
    · intro h
      cases h0 : findSlot db slid with
      | none => rw [createBooking_none now sid slid db h0] at h; cases h
      | some s =>
        rw [createBooking_eq_cases now sid slid db s h0] at h
        split_ifs at h with h1 h2 h3 h4 <;> try cases h
        push_neg at h1
        exact ⟨s, rfl, by simpa using h1.1, by omega, h2, h3, h4⟩
    · rintro ⟨s, h0, ha, hf, hnb, hnbl, hd⟩
      exact createBooking_err_dup now sid slid db s h0 ha hf hnb hnbl hd
  · intro b db'
    constructor
    · intro h
      obtain ⟨s, h0, ha, hf, hnb, hnbl, hnd, hbq, hdbq⟩ :=
        createBooking_ok_dest now sid slid db b db' h
      exact ⟨⟨s, h0, ha, hf, hnb, hnbl, hnd⟩, hbq, hdbq⟩
    · rintro ⟨⟨s, h0, ha, hf, hnb, hnbl, hnd⟩, hbq, hdbq⟩
      rw [hbq, hdbq]
      exact createBooking_ok_of now sid slid db s h0 ha hf hnb hnbl hnd

/-- Witness for C4 at concrete stores: the six cases of the
characterization each evaluated at an explicit input. -/
theorem claim_C4_witness :
    createBooking 0 42 99 dbOpen = .error .NotFound ∧
    createBooking 500 42 1 dbOpen = .error .SlotUnavailable ∧
    createBooking 0 42 2 dbBooked = .error .SlotAlreadyBooked ∧
    createBooking 0 42 1 dbBlocked = .error .StudentBlocked ∧
    createBooking 0 42 2 dbBooked ≠ .error .DuplicateSubjectBooking ∧
    createBooking 0 42 1 dbOpen
      = .ok (newBooking 42 1 dbOpen, insertBooking 42 1 dbOpen) :=
  ⟨((claim_C4 0 42 99 dbOpen).1).2 rfl,
   ((claim_C4 500 42 1 dbOpen).2.1).2 ⟨slotW1, rfl, Or.inr (by decide)⟩,
   ((claim_C4 0 42 2 dbBooked).2.2.1).2 ⟨slotW2, rfl, rfl, by decide, by decide⟩,
   ((claim_C4 0 42 1 dbBlocked).2.2.2.1).2 ⟨slotW1, rfl, rfl, by decide, by decide, by decide⟩,
   fun h => by
     have := ((claim_C4 0 42 2 dbBooked).2.2.2.2.1).1 h
     exact absurd this (by decide),
   ((claim_C4 0 42 1 dbOpen).2.2.2.2.2 _ _).2 ⟨⟨slotW1, rfl, rfl, by decide, by decide, by decide, by decide⟩, rfl, rfl⟩⟩

/-- Witness for C8 at a concrete store: student 42's confirmed booking on
slot 1 is cancelled, then student 7 books slot 1 successfully. -/
theorem claim_C8_witness :
    createBooking 0 7 1 (cancelUpdate 10 dbCancel)
      = .ok (newBooking 7 1 (cancelUpdate 10 dbCancel),
             insertBooking 7 1 (cancelUpdate 10 dbCancel)) :=
  claim_C8 0 42 7 10 1 dbCancel (cancelUpdate 10 dbCancel) slotW1 rfl rfl
    rfl (by decide) (by decide) (by decide) (by decide) (by decide)

end Scheduler

namespace Frontend

/-- C9: the Stepper's computed active index equals
`min(max(activeIndex, 0), max(0, steps.length - 1))`; a non-array steps
prop is treated as the empty list; the computed index is never negative
and, whenever any steps exist, indexes a step inside the list, so no
out-of-range step is marked active. -/
theorem claim_C9 : ∀ steps activeIndex,
    stepperClampedActive steps activeIndex
      = min (max activeIndex 0)
          (max 0 (((stepperSafeSteps steps).length : Int) - 1)) ∧
    stepperSafeSteps none = [] ∧
    0 ≤ stepperClampedActive steps activeIndex ∧
    (stepperSafeSteps steps ≠ [] →
      (stepperClampedActive steps activeIndex).toNat
        < (stepperSafeSteps steps).length) := by
  intro steps activeIndex
  refine ⟨rfl, rfl, le_min (le_max_right _ _) (le_max_left _ _), ?_⟩
  intro h
  have hlen : 0 < (stepperSafeSteps steps).length := List.length_pos.2 h
  have h2 : stepperClampedActive steps activeIndex ≤ stepperLastIdx steps :=
    min_le_right _ _
  have h3 : stepperLastIdx steps
      ≤ ((stepperSafeSteps steps).length : Int) - 1 := by
    unfold stepperLastIdx
    exact max_le (by omega) le_rfl
  have h4 : 0 ≤ stepperClampedActive steps activeIndex :=
    le_min (le_max_right _ _) (le_max_left _ _)
  omega

/-- Witness for C9: a two-step list with activeIndex 7 clamps to index 1,
inside the list. -/
theorem claim_C9_witness :
    stepperClampedActive (some [⟨none, none, none⟩, ⟨none, none, none⟩]) 7
      = min (max 7 0)
          (max 0 (((stepperSafeSteps
            (some [⟨none, none, none⟩, ⟨none, none, none⟩])).length : Int) - 1)) ∧
    (stepperClampedActive (some [⟨none, none, none⟩, ⟨none, none, none⟩]) 7).toNat
      < (stepperSafeSteps
          (some [⟨none, none, none⟩, ⟨none, none, none⟩])).length :=
  ⟨(claim_C9 (some [⟨none, none, none⟩, ⟨none, none, none⟩]) 7).1,
   (claim_C9 (some [⟨none, none, none⟩, ⟨none, none, none⟩]) 7).2.2.2
     (by decide)⟩

/-- C10: `getApiErrorMessage` is the pure case analysis of the extracted
`err?.response?.data` value and always yields a string without throwing:
fallback on falsy data, the data itself when a string, then the `detail`,
`error.message` and `error` string fields in order, then the message of
the data's first field, and the JSON serialization or the fallback as a
last resort. -/
theorem claim_C10 :
    (∀ err fallback, getApiErrorMessage err fallback
      = apiMessageOfData (getField (getField err "response") "data") fallback) ∧
    (∀ data fallback, isFalsy data = true →
      apiMessageOfData data fallback = fallback) ∧
    (∀ s fallback, isFalsy (JsValue.str s) = false →
      apiMessageOfData (JsValue.str s) fallback = s) ∧
    (∀ data fallback s, isFalsy data = false → asStr data = none →
      asStr (getField data "detail") = some s →
      apiMessageOfData data fallback = s) ∧
    (∀ data fallback s, isFalsy data = false → asStr data = none →
      asStr (getField data "detail") = none →
      asStr (getField (getField data "error") "message") = some s →
      apiMessageOfData data fallback = s) ∧
    (∀ data fallback s, isFalsy data = false → asStr data = none →
      asStr (getField data "detail") = none →
      asStr (getField (getField data "error") "message") = none →
      asStr (getField data "error") = some s →
      apiMessageOfData data fallback = s) ∧
    (∀ data fallback, isFalsy data = false → asStr data = none →
      asStr (getField data "detail") = none →
      asStr (getField (getField data "error") "message") = none →
      asStr (getField data "error") = none →
      isObjectType data = true →
      (jsKeys data).head? = none →
      apiMessageOfData data fallback = jsonStringify data) ∧
    (∀ data fallback k, isFalsy data = false → asStr data = none →
      asStr (getField data "detail") = none →
      asStr (getField (getField data "error") "message") = none →
      asStr (getField data "error") = none →
      isObjectType data = true →
      (jsKeys data).head? = some k → k.isEmpty = true →
      apiMessageOfData data fallback = jsonStringify data) ∧
    (∀ data fallback k, isFalsy data = false → asStr data = none →
      asStr (getField data "detail") = none →
      asStr (getField (getField data "error") "message") = none →
      asStr (getField data "error") = none →
      isObjectType data = true →
      (jsKeys data).head? = some k → k.isEmpty = false →
      apiMessageOfData data fallback
        = (firstFieldMsg (getField data k)).getD (jsonStringify data)) ∧
    (∀ data fallback, isFalsy data = false → asStr data = none →
      asStr (getField data "detail") = none →
      asStr (getField (getField data "error") "message") = none →
      asStr (getField data "error") = none →
      isObjectType data = false →
      apiMessageOfData data fallback = fallback) := by
  refine ⟨fun err fallback => rfl, ?_, ?_, ?_, ?_, ?_, ?_, ?_, ?_, ?_⟩
  · intro data fallback h
    simp [apiMessageOfData, h]
  · intro s fallback h
    simp [apiMessageOfData, h, asStr]
  · intro data fallback s h h1 h2
    simp [apiMessageOfData, h, h1, h2]
  · intro data fallback s h h1 h2 h3
    simp [apiMessageOfData, h, h1, h2, h3]
  · intro data fallback s h h1 h2 h3 h4
    simp [apiMessageOfData, h, h1, h2, h3, h4]
  · intro data fallback h h1 h2 h3 h4 h5 h6
    simp [apiMessageOfData, h, h1, h2, h3, h4, h5, h6]
  · intro data fallback k h h1 h2 h3 h4 h5 h6 h7
    simp [apiMessageOfData, h, h1, h2, h3, h4, h5, h6, h7]
  · intro data fallback k h h1 h2 h3 h4 h5 h6 h7
    simp [apiMessageOfData, h, h1, h2, h3, h4, h5, h6, h7]
  · intro data fallback h h1 h2 h3 h4 h5
    simp [apiMessageOfData, h, h1, h2, h3, h4, h5]

/-- Witness for C10 at concrete values: a null error yields the fallback,
a string payload is returned as is, a `detail` field is extracted, and a
field-error array yields its first message. -/
theorem claim_C10_witness :
    apiMessageOfData .null "Request failed" = "Request failed" ∧
    apiMessageOfData (.str "boom") "Request failed" = "boom" ∧
    apiMessageOfData (.obj [("detail", .str "nope")]) "Request failed" = "nope" ∧
    apiMessageOfData (.obj [("slot", .arr [.str "Slot already booked.", .str "x"])])
        "Request failed"
      = (firstFieldMsg (getField (.obj [("slot",
          .arr [.str "Slot already booked.", .str "x"])]) "slot")).getD
          (jsonStringify (.obj [("slot",
            .arr [.str "Slot already booked.", .str "x"])])) ∧
    apiMessageOfData (.num 5) "Request failed" = "Request failed" :=
  ⟨claim_C10.2.1 .null "Request failed" rfl,
   claim_C10.2.2.1 "boom" "Request failed" rfl,
   claim_C10.2.2.2.1 (.obj [("detail", .str "nope")]) "Request failed"
     "nope" rfl rfl rfl,
   claim_C10.2.2.2.2.2.2.2.2.1
     (.obj [("slot", .arr [.str "Slot already booked.", .str "x"])])
     "Request failed" "slot" rfl rfl rfl rfl rfl rfl rfl rfl,
   claim_C10.2.2.2.2.2.2.2.2.2 (.num 5) "Request failed"
     rfl rfl rfl rfl rfl rfl⟩

end Frontend

